import Mathlib

/-!
Formal model of the chat service in mi-bot/app.py.

The service is a single-endpoint Flask app: POST /chat validates the request,
checks a blocklist, looks up predefined trigger replies, otherwise calls a
generative API with a rotate-on-failure key pool, post-processes the text
(punctuation collapse, forbidden-term firewall, anti-repetition, emoji
alternation, memory recall) and persists the per-user history in a table.

Randomness (random.random, random.choice, random.randint, Python set.pop) is
modelled by explicit oracle parameters; the external network calls (the
cohere chat call and the database connection) are modelled by explicit
result parameters.  Machine behaviour that the claims depend on (Python
substring tests, str.lower, str.strip, re word boundaries, JSON parsing of
the request body) is modelled character-by-character below; each definition
carries a reference to the source lines it embeds.
-/

/-- Whitespace characters removed by Python str.strip (ASCII subset). -/
def pyWs (c : Char) : Bool :=
  c = ' ' || c = '\t' || c = '\n' || c = '\r' || c.toNat = 11 || c.toNat = 12

/-- Model of Python str.strip on a character list. -/
def pyStripChars (l : List Char) : List Char :=
  ((l.dropWhile pyWs).reverse.dropWhile pyWs).reverse

/-- Model of Python str.strip. -/
def pyStrip (s : String) : String := ⟨pyStripChars s.data⟩

/-- Model of Python str.lower (character-wise; the ASCII alphabet, which is
all the repository text exercises case on). -/
def lowerStr (s : String) : String := ⟨s.data.map Char.toLower⟩

/-- Model of the Python substring test `needle in hay` on character lists:
the needle leads at some position of the hay. -/
def containsSub (needle : List Char) : List Char → Bool
  | [] => needle.isPrefixOf []
  | c :: t => needle.isPrefixOf (c :: t) || containsSub needle t

/-- Model of the Python substring test `needle in hay` on strings. -/
def pyContains (needle hay : String) : Bool := containsSub needle.data hay.data

/-- EMOJI_PATTERN character ranges (app.py lines 99-104). -/
def isEmojiChar (c : Char) : Bool :=
  (0x1F600 ≤ c.toNat && c.toNat ≤ 0x1F64F) ||
  (0x1F300 ≤ c.toNat && c.toNat ≤ 0x1F5FF) ||
  (0x1F680 ≤ c.toNat && c.toNat ≤ 0x1F6FF) ||
  (0x1F1E0 ≤ c.toNat && c.toNat ≤ 0x1F1FF)

/-- contains_emoji (app.py lines 154-155). -/
def contains_emoji (text : String) : Bool := text.data.any isEmojiChar

/-- strip_emojis (app.py lines 157-158): EMOJI_PATTERN.sub removes every
emoji character, then str.strip trims whitespace. -/
def strip_emojis (text : String) : String :=
  pyStrip ⟨text.data.filter (fun c => !isEmojiChar c)⟩

/-- BotConfig.IGNORED_USERS (app.py line 120). -/
def IGNORED_USERS : List String := ["game of thrones"]

/-- BotConfig.FORBIDDEN_WORDS (app.py line 121). -/
def FORBIDDEN_WORDS : List String := ["sexi", "hago"]

/-- BotConfig.FORBIDDEN_SOCIALS (app.py lines 124-128). -/
def FORBIDDEN_SOCIALS : List String :=
  ["facebook", "instagram", "tiktok", "whatsapp", "snapchat", "telegram",
   "twitter", "x.com", "messenger", "reddit", "discord"]

/-- BotConfig.PREDEFINED_RESPONSES (app.py lines 130-135), in insertion
order (Python dict iteration order). -/
def PREDEFINED_RESPONSES : List (String × String) :=
  [("[Recordatorio en línea]", "Hola cielo como estas"),
   ("es muy emparejado para ti", "Holis busco novio y tú estas lindo 🥺"),
   ("monedas de oro para saludarle", "Holis busco novio y tú estas lindo 🥺"),
   ("Te he seguido. Podemos ser amigos", "Te he seguido")]

/-- RANDOM_EMOJIS (app.py line 105). -/
def RANDOM_EMOJIS : List String := [" 😉", " 😘", " 😊", " 🔥", " 😈", " 😏", " 🥺"]

/-- NATURAL_QUESTIONS (app.py lines 107-114). -/
def NATURAL_QUESTIONS : List String :=
  ["y tu que haces?", "mmm y cuentame mas", "ajaja en serio?",
   "tuuu que opinas?", "q estas haciendo ahorita?", "jeje y que mas?"]

/-- Fillers substituted for an empty, repeated or forbidden reply
(app.py line 294). -/
def BAD_FILLERS : List String := ["jeje sii", "ok", "dale", "mmm bueno"]

/-- Fillers substituted on a collision with the recent-global-output set
(app.py line 318). -/
def GLOBAL_FILLERS : List String := ["ajaj sii", "dalee", "okey", "mmm bueno", "yaa jeje"]

/-- Extra tails for the timido mode (app.py line 307). -/
def TIMIDO_EXTRAS : List String := ["y tu?", "mmm y tu q piensas?", "jeje y tu?"]

/-- Extra tails for the atrevido mode (app.py line 310). -/
def ATREVIDO_EXTRAS : List String :=
  ["y si me cuentas mas 😉", "me gusta como hablas 😏", "quiero saber mas 🔥"]

/-- Characters counted as word characters by the model of the regex \b
boundary (the forbidden words are ASCII, so the ASCII \w suffices). -/
def isWordChar (c : Char) : Bool := c.isAlphanum || c = '_'

/-- A regex word boundary holds next to the string edge or a non-word
character. -/
def boundaryOk (oc : Option Char) : Bool :=
  match oc with
  | none => true
  | some c => !isWordChar c

/-- Model of re.search of a whole-word pattern (backslash-b w backslash-b):
scan every position of hay; at a position the word matches when it is a
leading substring there and both neighbours are boundaries.  prev is the
character just before the current position. -/
def wholeWordSearch (w : List Char) : List Char → Option Char → Bool
  | [], prev => w.isPrefixOf [] && boundaryOk prev && boundaryOk (List.drop w.length ([] : List Char)).head?
  | c :: t, prev =>
    (w.isPrefixOf (c :: t) && boundaryOk prev && boundaryOk ((c :: t).drop w.length).head?) ||
      wholeWordSearch w t (some c)

/-- contains_forbidden_word (app.py lines 230-245): forbidden words are
matched as whole words on the lowercased text, social names by a plain
substring test. -/
def contains_forbidden_word (text : String) : Bool :=
  let lower := lowerStr text
  FORBIDDEN_WORDS.any (fun w => wholeWordSearch w.data lower.data none) ||
    FORBIDDEN_SOCIALS.any (fun soc => containsSub soc.data lower.data)

/-- handle_system_message (app.py lines 247-251): first predefined trigger
contained (case-sensitively) in the message wins. -/
def handle_system_message (message : String) : Option String :=
  PREDEFINED_RESPONSES.findSome?
    (fun p => if pyContains p.1 message then some p.2 else none)

/-- One history entry, the dict with keys role and message. -/
structure ChatMessage where
  role : String
  message : String
deriving DecidableEq

/-- The in-memory user session dict: history, emoji_last_message,
memories (app.py line 194). -/
structure UserSession where
  history : List ChatMessage
  emoji_last_message : Bool
  memories : List String
deriving DecidableEq

/-- memories list slice memories[-5:] (app.py line 184): the last n
elements, or all of them when fewer. -/
def takeLast (n : Nat) (l : List α) : List α := l.drop (l.length - n)

/-- Part of the original string after the first occurrence of sep, when sep
occurs; models user_message.split(sep, 1)[1], whose index access raises when
sep does not occur in the original string. -/
def splitAfterAux (sep : List Char) : List Char → Option (List Char)
  | [] => if sep.isPrefixOf [] then some [] else none
  | c :: t =>
    if sep.isPrefixOf (c :: t) then some ((c :: t).drop sep.length)
    else splitAfterAux sep t

/-- String version of splitAfterAux. -/
def split_after (sep s : String) : Option String :=
  (splitAfterAux sep.data s.data).map (fun l => ⟨l⟩)

/-- One trigger of update_memories (app.py lines 174-182): the trigger is
looked for in the lowercased message, but the split runs on the original
message, so a trigger present only in another letter case raises IndexError
(modelled as none). -/
def mem_step (mems : List String) (trigger label msg : String) : Option (List String) :=
  if containsSub trigger.data (lowerStr msg).data then
    match split_after trigger msg with
    | some rest => some (mems ++ [label ++ pyStrip rest])
    | none => none
  else some mems

/-- update_memories (app.py lines 170-184): append a fact per matched
trigger, then keep memories[-5:]. -/
def update_memories (s : UserSession) (msg : String) : Option UserSession :=
  match mem_step s.memories "me gusta" "le gusta " msg with
  | none => none
  | some m1 =>
    match mem_step m1 "soy de" "es de " msg with
    | none => none
    | some m2 =>
      match mem_step m2 "trabajo en" "trabaja en " msg with
      | none => none
      | some m3 => some { s with memories := takeLast 5 m3 }

/-- The facts a single message contributes, in the order update_memories
appends them. -/
def fact_for (trigger label msg : String) : List String :=
  if containsSub trigger.data (lowerStr msg).data then
    match split_after trigger msg with
    | some rest => [label ++ pyStrip rest]
    | none => []
  else []

/-- All facts extracted from one message. -/
def extracted_facts (msg : String) : List String :=
  fact_for "me gusta" "le gusta " msg ++ fact_for "soy de" "es de " msg ++
    fact_for "trabajo en" "trabaja en " msg

/-- update_memories applied over a sequence of user messages (one per
request; no other code path touches the memories list). -/
def update_memories_seq (s : UserSession) : List String → Option UserSession
  | [] => some s
  | m :: ms =>
    match update_memories s m with
    | none => none
    | some s2 => update_memories_seq s2 ms

/-- All facts extracted from a sequence of messages, in order. -/
def extracted_facts_seq (msgs : List String) : List String :=
  msgs.foldr (fun m acc => extracted_facts m ++ acc) []

/-- recall_memory (app.py lines 186-190); doRecall is the oracle for
random.random() < 0.4 and k the oracle for random.choice. -/
def recall_memory (s : UserSession) (doRecall : Bool) (k : Nat) : Option String :=
  if !s.memories.isEmpty && doRecall then
    some (s.memories.getD (k % s.memories.length) "")
  else none

/-- Result of one attempt against the cohere chat endpoint, as the code
distinguishes outcomes: success with the response text, the NotFoundError
branch, or any other exception. -/
inductive ApiResult where
  | success (text : String)
  | notFound
  | otherError
deriving DecidableEq

/-- ApiKeyManager (app.py lines 21-38); the lock is irrelevant to the
sequential model. -/
structure ApiKeyManager where
  keys : List String
  current_index : Nat
deriving DecidableEq

/-- ApiKeyManager.rotate_to_next_key (app.py lines 34-38). -/
def rotate_to_next_key (m : ApiKeyManager) : ApiKeyManager :=
  { m with current_index := (m.current_index + 1) % m.keys.length }

/-- Outcome of the guarded cohere call: the reply text, the key-manager
state, and instrumentation counters for how many rotations and retry
attempts happened. -/
structure ApiCallResult where
  reply : String
  km : ApiKeyManager
  rotations : Nat
  retries : Nat
deriving DecidableEq

/-- The try/except ladder around the cohere chat call (app.py lines
264-290): success strips the text; NotFoundError yields a fixed apology
with no retry; any other error rotates the key once and retries once, a
second failure of any kind yielding the generic apology. r1 is the outcome
of the first attempt, r2 of the retry. -/
def cohere_try_chat (m : ApiKeyManager) (r1 r2 : ApiResult) : ApiCallResult :=
  match r1 with
  | .success t => ⟨pyStrip t, m, 0, 0⟩
  | .notFound => ⟨"ese modelo ya no está 😅", m, 0, 0⟩
  | .otherError =>
    let m2 := rotate_to_next_key m
    match r2 with
    | .success t => ⟨pyStrip t, m2, 1, 1⟩
    | .notFound => ⟨"mmm fallo algo jeje 😅", m2, 1, 1⟩
    | .otherError => ⟨"mmm fallo algo jeje 😅", m2, 1, 1⟩

/-- The last CHATBOT line of the transcript (app.py line 262): the history
roles are mapped to USER or CHATBOT first, so this is the last entry whose
role is not USER. -/
def last_bot_message (history : List ChatMessage) : Option String :=
  (history.reverse.find? (fun m => !(m.role == "USER"))).map (fun m => m.message)

/-- Collapse of runs of two or more exclamation or question marks to their
first character, re.sub of the class [!?] repeated (app.py line 292): each
maximal run keeps its first character, so a character of the class is
dropped exactly when the previous character is also of the class.
prevPunct records whether the previous character belonged to the class. -/
def collapse_punct_aux (prevPunct : Bool) : List Char → List Char
  | [] => []
  | c :: rest =>
    let isP := c = '!' || c = '?'
    if isP && prevPunct then collapse_punct_aux true rest
    else c :: collapse_punct_aux isP rest

/-- collapse_punct on a whole list (no preceding character). -/
def collapse_punct (l : List Char) : List Char := collapse_punct_aux false l

/-- String version of collapse_punct. -/
def collapse_punct_str (s : String) : String := ⟨collapse_punct s.data⟩

/-- Substitution of a filler for an empty reply, a reply equal to the last
bot line, or a forbidden reply (app.py lines 293-294); k is the
random.choice oracle. -/
def fallback_if_bad (ia_reply : String) (lastBot : Option String) (k : Nat) : String :=
  if ia_reply = "" ∨ some ia_reply = lastBot ∨ contains_forbidden_word ia_reply then
    BAD_FILLERS.getD (k % 4) "ok"
  else ia_reply

/-- Oracle for the randomness inside humanize_text: doReplace models
random.random() < 0.3, dupDraw models the optional random.random() < 0.2
draw together with the randint position. -/
structure HumanizeRand where
  doReplace : Bool
  dupDraw : Option Nat
deriving DecidableEq

/-- Duplication of the character at position pos, text[:pos] + text[pos]*2 +
text[pos+1:]. -/
def dupAt (l : List Char) (pos : Nat) : List Char :=
  l.take pos ++ (match l.get? pos with | some c => [c, c] | none => []) ++ l.drop (pos + 1)

/-- humanize_text (app.py lines 160-167): lowercase, maybe apply the three
replacements, maybe duplicate one inner character of the current text. -/
def humanize_text (text : String) (hr : HumanizeRand) : String :=
  let t := lowerStr text
  let t := if hr.doReplace
    then ((t.replace "que" "q").replace "tú" "tu").replace "estás" "estas"
    else t
  match hr.dupDraw with
  | some d => if t.length > 4 then ⟨dupAt t.data (1 + d % (t.length - 2))⟩ else t
  | none => t

/-- Python set.add on the model of the recent-global-replies set: a list
without duplicates, insertion at the end when absent. -/
def set_add (s : List String) (x : String) : List String :=
  if s.contains x then s else s ++ [x]

/-- Python set.pop removes an arbitrary element; the oracle k picks which. -/
def set_pop (s : List String) (k : Nat) : List String := s.eraseIdx (k % s.length)

/-- The recent-global-output guard (app.py lines 317-321): substitute a
filler when the candidate is already in the set, add the emitted reply,
evict one element when the set exceeds 20 entries. -/
def global_anti_repeat (ia_reply : String) (g : List String) (fillerIdx popIdx : Nat) :
    String × List String :=
  let r := if g.contains ia_reply then GLOBAL_FILLERS.getD (fillerIdx % 5) "okey" else ia_reply
  let g2 := set_add g r
  let g3 := if g2.length > 20 then set_pop g2 popIdx else g2
  (r, g3)

/-- The emoji alternation step (app.py lines 323-331): when the previous
reply had no emoji, append one (only when the reply lacks one) and set the
flag; otherwise strip all emojis and clear the flag. -/
def emoji_policy (ia_reply : String) (emoji_last : Bool) (emoji_choice : String) :
    String × Bool :=
  if !emoji_last then
    (if contains_emoji ia_reply then ia_reply else ia_reply ++ emoji_choice, true)
  else
    (strip_emojis ia_reply, false)

/-- Oracle bundle for one run of generate_ia_response, one field per random
draw in source order, plus the two network outcomes. -/
structure GenRand where
  api1 : ApiResult
  api2 : ApiResult
  badFiller : Nat
  questionIdx : Nat
  questionHum : HumanizeRand
  selfHumDo : Bool
  selfHum : HumanizeRand
  modoTimido : Bool
  modoDo : Bool
  modoIdx : Nat
  modoHum : HumanizeRand
  recallDo : Bool
  recallIdx : Nat
  globalFiller : Nat
  popIdx : Nat
  emojiIdx : Nat
deriving DecidableEq

/-- Result of generate_ia_response: the reply, the mutated session, the
key-manager state, the global replies set, and the retry instrumentation. -/
structure GenResult where
  reply : String
  session : UserSession
  km : ApiKeyManager
  globals : List String
  rotations : Nat
  retries : Nat
deriving DecidableEq

/-- generate_ia_response (app.py lines 254-335).  The unused user_id
parameter is dropped.  none models the uncaught IndexError raised inside
update_memories when a memory trigger occurs only in another letter case.
The cohere_history build (lines 258-261) only feeds the external call and
last_bot_message, so only the latter appears. -/
def generate_ia_response (user_message : String) (s : UserSession)
    (km : ApiKeyManager) (g : List String) (r : GenRand) : Option GenResult :=
  let lastBot := last_bot_message s.history
  let ac := cohere_try_chat km r.api1 r.api2
  let reply1 := collapse_punct_str ac.reply
  let reply2 := fallback_if_bad reply1 lastBot r.badFiller
  let nBot := (s.history.filter (fun m => m.role == "CHATBOT")).length
  let reply3 :=
    if nBot > 0 ∧ nBot % 3 = 0
    then reply2 ++ " " ++ humanize_text (NATURAL_QUESTIONS.getD (r.questionIdx % 6) "") r.questionHum
    else reply2
  let reply4 := if r.selfHumDo then humanize_text reply3 r.selfHum else reply3
  let reply5 :=
    if r.modoTimido then
      if r.modoDo
      then reply4 ++ " " ++ humanize_text (TIMIDO_EXTRAS.getD (r.modoIdx % 3) "") r.modoHum
      else reply4
    else
      if r.modoDo
      then reply4 ++ " " ++ ATREVIDO_EXTRAS.getD (r.modoIdx % 3) ""
      else reply4
  match update_memories s user_message with
  | none => none
  | some s1 =>
    let reply6 :=
      match recall_memory s1 r.recallDo r.recallIdx with
      | some mem => reply5 ++ " (recuerdo q me dijiste q " ++ mem ++ ")"
      | none => reply5
    let gp := global_anti_repeat reply6 g r.globalFiller r.popIdx
    let ep := emoji_policy gp.1 s1.emoji_last_message (RANDOM_EMOJIS.getD (r.emojiIdx % 7) "")
    let s2 : UserSession :=
      ⟨s1.history ++ [⟨"USER", user_message⟩, ⟨"CHATBOT", ep.1⟩], ep.2, s1.memories⟩
    some ⟨ep.1, s2, ac.km, gp.2, ac.rotations, ac.retries⟩

/-- One row of conversation_histories: history, emoji_last_message and the
memories column, which can be NULL on rows from the older schema. -/
structure SessionRow where
  history : List ChatMessage
  emoji_last_message : Bool
  memories : Option (List String)
deriving DecidableEq

/-- The conversation_histories table, keyed by user_id. -/
abbrev ChatStore := List (String × SessionRow)

/-- SELECT by primary key. -/
def store_get (st : ChatStore) (uid : String) : Option SessionRow :=
  (st.find? (fun p => p.1 == uid)).map (fun p => p.2)

/-- INSERT ... ON CONFLICT (user_id) DO UPDATE: replace the existing row or
append a new one. -/
def store_set (st : ChatStore) (uid : String) (row : SessionRow) : ChatStore :=
  if (st.find? (fun p => p.1 == uid)).isSome then
    st.map (fun p => if p.1 == uid then (uid, row) else p)
  else st ++ [(uid, row)]

/-- get_user_history (app.py lines 193-208): a missing row yields the fresh
default session; a NULL memories column is read as the empty list. -/
def get_user_history (st : ChatStore) (uid : String) : UserSession :=
  match store_get st uid with
  | some row => ⟨row.history, row.emoji_last_message, row.memories.getD []⟩
  | none => ⟨[], false, []⟩

/-- save_user_history (app.py lines 210-227): the upsert when the write
succeeds; any exception is logged and swallowed (dbOk = false leaves the
table untouched and raises nothing). -/
def save_user_history (st : ChatStore) (uid : String) (s : UserSession) (dbOk : Bool) :
    ChatStore :=
  if dbOk then store_set st uid ⟨s.history, s.emoji_last_message, some s.memories⟩ else st

/-- Unicode general-category-C membership (unicodedata.category(ch)[0] ==
"C") over the planes the service can see: the Cc controls, the Cf format
characters, the Cs surrogates, the Co private-use ranges.  Unassigned (Cn)
code points are not modelled. -/
def isCategoryC (c : Char) : Bool :=
  let n := c.toNat
  n < 0x20 || (0x7F ≤ n && n ≤ 0x9F) || n = 0xAD ||
  (0x600 ≤ n && n ≤ 0x605) || n = 0x61C || n = 0x6DD || n = 0x70F ||
  (0x200B ≤ n && n ≤ 0x200F) || (0x202A ≤ n && n ≤ 0x202E) ||
  (0x2060 ≤ n && n ≤ 0x2064) || (0x2066 ≤ n && n ≤ 0x206F) ||
  n = 0xFEFF || (0xFFF9 ≤ n && n ≤ 0xFFFB) ||
  (0xD800 ≤ n && n ≤ 0xDFFF) || (0xE000 ≤ n && n ≤ 0xF8FF) ||
  n = 0xE0001 || (0xE0020 ≤ n && n ≤ 0xE007F) ||
  (0xF0000 ≤ n && n ≤ 0xFFFFD) || (0x100000 ≤ n && n ≤ 0x10FFFD)

/-- The category-C filter applied to the raw body before parsing
(app.py line 346). -/
def clean_raw (raw : String) : String := ⟨raw.data.filter (fun c => !isCategoryC c)⟩

/-- The request bodies the handler distinguishes once parsed: a JSON object
of string fields (the only shape it consumes) or a bare JSON string, on
which data.get raises AttributeError into the generic 500 handler.  Other
valid JSON top-level values are outside the model. -/
inductive ReqJson where
  | jstr (s : String)
  | jobj (fields : List (String × String))
deriving DecidableEq

/-- dict.get on the parsed object; a duplicated key keeps the last value,
as json.loads does. -/
def jget (fields : List (String × String)) (k : String) : Option String :=
  (fields.reverse.find? (fun p => p.1 == k)).map (fun p => p.2)

/-- JSON whitespace. -/
def json_ws (c : Char) : Bool := c = ' ' || c = '\t' || c = '\n' || c = '\r'

/-- Value of one hexadecimal digit. -/
def hexVal (c : Char) : Option Nat :=
  if '0' ≤ c ∧ c ≤ '9' then some (c.toNat - 48)
  else if 'a' ≤ c ∧ c ≤ 'f' then some (c.toNat - 87)
  else if 'A' ≤ c ∧ c ≤ 'F' then some (c.toNat - 55)
  else none

/-- The left curly brace character. -/
def lbrace : Char := Char.ofNat 123

/-- The right curly brace character. -/
def rbrace : Char := Char.ofNat 125

/-- Body of a JSON string after its opening quote, with the escape
sequences json.loads decodes; raw control characters are invalid in strict
mode; lone surrogate escapes are outside the model.  Returns the decoded
string and the input after the closing quote. -/
def parseStr (fuel : Nat) (cs : List Char) (acc : List Char) :
    Option (String × List Char) :=
  match fuel with
  | 0 => none
  | fuel + 1 =>
    match cs with
    | [] => none
    | '"' :: rest => some (⟨acc.reverse⟩, rest)
    | '\\' :: rest =>
      match rest with
      | 'n' :: r => parseStr fuel r ('\n' :: acc)
      | 't' :: r => parseStr fuel r ('\t' :: acc)
      | 'r' :: r => parseStr fuel r ('\r' :: acc)
      | 'b' :: r => parseStr fuel r (Char.ofNat 8 :: acc)
      | 'f' :: r => parseStr fuel r (Char.ofNat 12 :: acc)
      | '/' :: r => parseStr fuel r ('/' :: acc)
      | '\\' :: r => parseStr fuel r ('\\' :: acc)
      | '"' :: r => parseStr fuel r ('"' :: acc)
      | 'u' :: h1 :: h2 :: h3 :: h4 :: r =>
        match hexVal h1, hexVal h2, hexVal h3, hexVal h4 with
        | some a, some b, some c, some d =>
          let n := ((a * 16 + b) * 16 + c) * 16 + d
          if 0xD800 ≤ n ∧ n ≤ 0xDFFF then none
          else parseStr fuel r (Char.ofNat n :: acc)
        | _, _, _, _ => none
      | _ => none
    | c :: rest => if c.toNat < 0x20 then none else parseStr fuel rest (c :: acc)

/-- Members of a JSON object restricted to string values, starting at a key
and consuming through the closing brace. -/
def parseMembers (fuel : Nat) (cs : List Char) (acc : List (String × String)) :
    Option (List (String × String) × List Char) :=
  match fuel with
  | 0 => none
  | fuel + 1 =>
    match cs.dropWhile json_ws with
    | '"' :: rest =>
      match parseStr fuel rest [] with
      | none => none
      | some (k, rest1) =>
        match rest1.dropWhile json_ws with
        | ':' :: rest2 =>
          match rest2.dropWhile json_ws with
          | '"' :: rest3 =>
            match parseStr fuel rest3 [] with
            | none => none
            | some (v, rest4) =>
              match rest4.dropWhile json_ws with
              | ',' :: rest5 => parseMembers fuel rest5 (acc ++ [(k, v)])
              | c :: rest5 => if c = rbrace then some (acc ++ [(k, v)], rest5) else none
              | [] => none
          | _ => none
        | _ => none
    | _ => none

/-- Model of json.loads on the cleaned body, for the JSON fragment the
handler distinguishes: a top-level object of string fields or a top-level
string; trailing input must be whitespace. -/
def parseJson (s : String) : Option ReqJson :=
  let fuel := s.data.length + 2
  match s.data.dropWhile json_ws with
  | [] => none
  | c :: rest =>
    if c = '"' then
      match parseStr fuel rest [] with
      | some (v, r) => if (r.dropWhile json_ws).isEmpty then some (.jstr v) else none
      | none => none
    else if c = lbrace then
      match rest.dropWhile json_ws with
      | d :: rest2 =>
        if d = rbrace then
          if (rest2.dropWhile json_ws).isEmpty then some (.jobj []) else none
        else
          match parseMembers fuel (d :: rest2) [] with
          | some (fields, r) =>
            if (r.dropWhile json_ws).isEmpty then some (.jobj fields) else none
          | none => none
      | [] => none
    else none

/-- Response of one request: body text, HTTP status, the table and global
state afterwards, and instrumentation recording whether the generative step
ran. -/
structure ChatResponse where
  body : String
  status : Nat
  store : ChatStore
  km : ApiKeyManager
  globals : List String
  generative_invoked : Bool
deriving DecidableEq

/-- handle_chat after JSON parsing (app.py lines 351-372): field
extraction and emptiness check, blocklist check, then under the per-user
lock the load, the predefined-trigger short-circuit or the generative step,
the save, and the reply.  A crash inside the generative step is caught by
the outer handler (lines 373-375). -/
def handle_chat_parsed (st : ChatStore) (km : ApiKeyManager) (g : List String)
    (data : ReqJson) (r : GenRand) (dbOk : Bool) : ChatResponse :=
  match data with
  | .jstr _ => ⟨"Error en el servidor", 500, st, km, g, false⟩
  | .jobj fields =>
    match jget fields "user_id", jget fields "message" with
    | some uid, some msg =>
      if uid = "" ∨ msg = "" then ⟨"Error: faltan parámetros", 400, st, km, g, false⟩
      else if IGNORED_USERS.contains (lowerStr (pyStrip uid)) then
        ⟨"Ignorado", 200, st, km, g, false⟩
      else
        let s := get_user_history st uid
        match handle_system_message msg with
        | some resp =>
          let s2 : UserSession :=
            ⟨s.history ++ [⟨"USER", msg⟩, ⟨"CHATBOT", resp⟩], contains_emoji resp, s.memories⟩
          ⟨resp, 200, save_user_history st uid s2 dbOk, km, g, false⟩
        | none =>
          match generate_ia_response msg s km g r with
          | some res =>
            ⟨res.reply, 200, save_user_history st uid res.session dbOk, res.km, res.globals, true⟩
          | none => ⟨"Error en el servidor", 500, st, km, g, true⟩
    | some _, none => ⟨"Error: faltan parámetros", 400, st, km, g, false⟩
    | none, _ => ⟨"Error: faltan parámetros", 400, st, km, g, false⟩

/-- handle_chat from the raw body (app.py lines 341-375): reject an empty
body, strip the category-C characters, parse the JSON, then dispatch. -/
def handle_chat_raw (st : ChatStore) (km : ApiKeyManager) (g : List String)
    (raw : String) (r : GenRand) (dbOk : Bool) : ChatResponse :=
  if raw = "" then ⟨"Error: No se recibieron datos.", 400, st, km, g, false⟩
  else
    match parseJson (clean_raw raw) with
    | none => ⟨"Error: Formato JSON inválido.", 400, st, km, g, false⟩
    | some data => handle_chat_parsed st km g data r dbOk

/-- A trivial humanize oracle: no replacement, no duplication. -/
def hr0 : HumanizeRand := ⟨false, none⟩

/-- A deterministic oracle for concrete runs: both cohere attempts answer
"ok", every optional embellishment draw fails, every choice picks index 0. -/
def rand0 : GenRand :=
  ⟨.success "ok", .success "ok", 0, 0, hr0, false, hr0, true, false, 0, hr0, false, 0, 0, 0, 0⟩

/-- A two-key manager for concrete runs. -/
def km0 : ApiKeyManager := ⟨["k1", "k2"], 0⟩

/-- A raw body with no category-C character whose message field carries the
two-character JSON escape for a newline. -/
def escRaw : String := "\x7b\"user_id\":\"u\",\"message\":\"a\\nb\"\x7d"

/-- A plain raw body. -/
def rawA : String := "\x7b\"user_id\":\"u1\",\"message\":\"hola\"\x7d"

/-- The same body with one literal newline (a category-Cc character)
inserted. -/
def rawB : String := "\x7b\n\"user_id\":\"u1\",\"message\":\"hola\"\x7d"

/-! ### Supporting lemmas -/

theorem takeLast_of_le {α : Type} {n : Nat} {l : List α} (h : l.length ≤ n) :
    takeLast n l = l := by
  simp [takeLast, Nat.sub_eq_zero_of_le h]

theorem takeLast_cons_of_le {α : Type} {n : Nat} (c : α) {l : List α} (h : n ≤ l.length) :
    takeLast n (c :: l) = takeLast n l := by
  have h2 : l.length + 1 - n = (l.length - n) + 1 := by omega
  simp [takeLast, h2]

theorem takeLast_append_takeLast {α : Type} (n : Nat) (a b : List α) :
    takeLast n (takeLast n a ++ b) = takeLast n (a ++ b) := by
  induction a with
  | nil => simp [takeLast]
  | cons c t ih =>
    by_cases h : (c :: t).length ≤ n
    · rw [takeLast_of_le h]
    · push_neg at h
      have h1 : n ≤ t.length := by simp only [List.length_cons] at h; omega
      have h2 : n ≤ (t ++ b).length := by simp only [List.length_append]; omega
      rw [takeLast_cons_of_le c h1, List.cons_append, takeLast_cons_of_le c h2, ih]

theorem takeLast_length_le {α : Type} (n : Nat) (l : List α) : (takeLast n l).length ≤ n := by
  simp only [takeLast, List.length_drop]; omega

theorem isPrefixOf_append_self (s b : List Char) : s.isPrefixOf (s ++ b) = true := by
  induction s with
  | nil => simp [List.isPrefixOf]
  | cons c t ih => simp [List.isPrefixOf, ih]

theorem containsSub_of_lead {needle hay : List Char} (h : needle.isPrefixOf hay = true) :
    containsSub needle hay = true := by
  cases hay with
  | nil => simpa [containsSub] using h
  | cons c t => simp [containsSub, h]

theorem containsSub_cons (needle : List Char) (c : Char) (t : List Char) :
    containsSub needle (c :: t) = (needle.isPrefixOf (c :: t) || containsSub needle t) := rfl

theorem containsSub_sandwich (s a b : List Char) : containsSub s (a ++ s ++ b) = true := by
  induction a with
  | nil =>
    simp only [List.nil_append]
    exact containsSub_of_lead (isPrefixOf_append_self s b)
  | cons c t ih =>
    rw [List.cons_append, List.cons_append, containsSub_cons]
    have ih2 : containsSub s (t ++ (s ++ b)) = true := by simpa using ih
    simp [ih2]

theorem lowerStr_append (a b : String) : lowerStr (a ++ b) = lowerStr a ++ lowerStr b := by
  apply String.ext
  simp [lowerStr, String.data_append]

theorem mem_step_some {mems out : List String} {trigger label msg : String}
    (h : mem_step mems trigger label msg = some out) :
    out = mems ++ fact_for trigger label msg := by
  unfold mem_step at h
  unfold fact_for
  cases hc : containsSub trigger.data (lowerStr msg).data with
  | false =>
    simp [hc] at h ⊢
    exact h.symm
  | true =>
    simp only [hc, if_true] at h ⊢
    cases hs : split_after trigger msg with
    | none => simp [hs] at h
    | some rest =>
      simp [hs] at h ⊢
      exact h.symm

theorem update_memories_some {s s2 : UserSession} {msg : String}
    (h : update_memories s msg = some s2) :
    s2.memories = takeLast 5 (s.memories ++ extracted_facts msg) ∧
      s2.emoji_last_message = s.emoji_last_message ∧ s2.history = s.history := by
  unfold update_memories at h
  cases h1 : mem_step s.memories "me gusta" "le gusta " msg with
  | none => simp [h1] at h
  | some m1 =>
    simp only [h1] at h
    cases h2 : mem_step m1 "soy de" "es de " msg with
    | none => simp [h2] at h
    | some m2 =>
      simp only [h2] at h
      cases h3 : mem_step m2 "trabajo en" "trabaja en " msg with
      | none => simp [h3] at h
      | some m3 =>
        simp only [h3, Option.some.injEq] at h
        have e1 := mem_step_some h1
        have e2 := mem_step_some h2
        have e3 := mem_step_some h3
        subst h
        refine ⟨?_, rfl, rfl⟩
        simp [e3, e2, e1, extracted_facts, List.append_assoc]

theorem update_memories_seq_memories {init fin : UserSession} {msgs : List String}
    (hlen : init.memories.length ≤ 5)
    (h : update_memories_seq init msgs = some fin) :
    fin.memories = takeLast 5 (init.memories ++ extracted_facts_seq msgs) := by
  induction msgs generalizing init with
  | nil =>
    unfold update_memories_seq at h
    simp only [Option.some.injEq] at h
    subst h
    simp [extracted_facts_seq, takeLast_of_le hlen]
  | cons m ms ih =>
    unfold update_memories_seq at h
    cases h1 : update_memories init m with
    | none => simp [h1] at h
    | some s1 =>
      simp only [h1] at h
      have e1 := (update_memories_some h1).1
      have hlen1 : s1.memories.length ≤ 5 := by
        rw [e1]; exact takeLast_length_le 5 _
      have := ih hlen1 h
      rw [this, e1, takeLast_append_takeLast]
      simp [extracted_facts_seq, List.append_assoc]

theorem emoji_policy_snd (r : String) (f : Bool) (c : String) :
    (emoji_policy r f c).2 = !f := by
  cases f <;> simp [emoji_policy]

theorem mem_pyStripChars {c : Char} {l : List Char} (h : c ∈ pyStripChars l) : c ∈ l := by
  unfold pyStripChars at h
  rw [List.mem_reverse] at h
  have h2 := (List.dropWhile_sublist pyWs).mem h
  rw [List.mem_reverse] at h2
  exact (List.dropWhile_sublist pyWs).mem h2

theorem contains_emoji_strip (t : String) : contains_emoji (strip_emojis t) = false := by
  unfold contains_emoji strip_emojis
  rw [Bool.eq_false_iff]
  intro hany
  rw [List.any_eq_true] at hany
  obtain ⟨c, hc, he⟩ := hany
  have hm := mem_pyStripChars hc
  rw [List.mem_filter] at hm
  simp [he] at hm

theorem badFillers_getD_mem (k : Nat) : BAD_FILLERS.getD (k % 4) "ok" ∈ BAD_FILLERS := by
  have h : k % 4 = 0 ∨ k % 4 = 1 ∨ k % 4 = 2 ∨ k % 4 = 3 := by omega
  rcases h with h | h | h | h <;> simp [h, BAD_FILLERS]

theorem globalFillers_getD_mem (k : Nat) :
    GLOBAL_FILLERS.getD (k % 5) "okey" ∈ GLOBAL_FILLERS := by
  have h : k % 5 = 0 ∨ k % 5 = 1 ∨ k % 5 = 2 ∨ k % 5 = 3 ∨ k % 5 = 4 := by omega
  rcases h with h | h | h | h | h <;> simp [h, GLOBAL_FILLERS]

theorem set_add_length (s : List String) (x : String) :
    (set_add s x).length ≤ s.length + 1 := by
  unfold set_add
  split <;> simp

theorem set_pop_length {s : List String} (h : 0 < s.length) (k : Nat) :
    (set_pop s k).length = s.length - 1 := by
  unfold set_pop
  rw [List.length_eraseIdx]
  simp [Nat.mod_lt _ h]

theorem global_anti_repeat_cap {g : List String} (reply : String)
    (h : g.length ≤ 20) (j k : Nat) : ((global_anti_repeat reply g j k).2).length ≤ 20 := by
  unfold global_anti_repeat
  set r := if g.contains reply then GLOBAL_FILLERS.getD (j % 5) "okey" else reply with hr
  have ha := set_add_length g r
  by_cases hgt : (set_add g r).length > 20
  · have hp : 0 < (set_add g r).length := by omega
    simp only [hgt, if_true]
    rw [set_pop_length hp]
    omega
  · simp only [hgt, if_false]
    omega

theorem save_user_history_fail (st : ChatStore) (uid : String) (s : UserSession) :
    save_user_history st uid s false = st := by
  simp [save_user_history]

theorem handle_chat_parsed_dbOk (st : ChatStore) (km : ApiKeyManager) (g : List String)
    (data : ReqJson) (r : GenRand) :
    (handle_chat_parsed st km g data r false).body = (handle_chat_parsed st km g data r true).body ∧
    (handle_chat_parsed st km g data r false).status =
      (handle_chat_parsed st km g data r true).status ∧
    (handle_chat_parsed st km g data r false).store = st := by
  cases data with
  | jstr s => simp [handle_chat_parsed]
  | jobj fields =>
    unfold handle_chat_parsed
    rcases huid : jget fields "user_id" with _ | uid
    · simp [huid]
    rcases hmsg : jget fields "message" with _ | msg
    · simp [huid, hmsg]
    simp only [huid, hmsg]
    by_cases h1 : uid = "" ∨ msg = ""
    · simp [h1]
    · simp only [h1, if_false]
      by_cases h2 : lowerStr (pyStrip uid) ∈ IGNORED_USERS
      · simp [h2]
      · have h2b : IGNORED_USERS.contains (lowerStr (pyStrip uid)) = false := by
          simpa using h2
        simp only [h2b, Bool.false_eq_true, if_false]
        rcases hsys : handle_system_message msg with _ | resp
        · rcases hgen : generate_ia_response msg (get_user_history st uid) km g r with _ | res
          · simp [hsys, hgen]
          · simp [hsys, hgen, save_user_history_fail]
        · simp [hsys, save_user_history_fail]

/-! ### Claim theorems -/

/-- C1: in the generative fallback, a provider-reported model-not-found
returns the fixed apology with no retry and no rotation; any other provider
error rotates to the next configured credential and retries exactly once,
and a failed retry returns an apology from the small fixed set; every
request performs at most one retry and at most one rotation. -/
theorem claim_C1_generative_retry (km : ApiKeyManager) (r2 : ApiResult) (t : String) :
    cohere_try_chat km .notFound r2 = ⟨"ese modelo ya no está 😅", km, 0, 0⟩ ∧
    cohere_try_chat km (.success t) r2 = ⟨pyStrip t, km, 0, 0⟩ ∧
    cohere_try_chat km .otherError (.success t) = ⟨pyStrip t, rotate_to_next_key km, 1, 1⟩ ∧
    (cohere_try_chat km .otherError .otherError).reply ∈
      ["ese modelo ya no está 😅", "mmm fallo algo jeje 😅"] ∧
    cohere_try_chat km .otherError .otherError =
      ⟨"mmm fallo algo jeje 😅", rotate_to_next_key km, 1, 1⟩ ∧
    cohere_try_chat km .otherError .notFound =
      ⟨"mmm fallo algo jeje 😅", rotate_to_next_key km, 1, 1⟩ ∧
    (∀ r1 : ApiResult, (cohere_try_chat km r1 r2).rotations ≤ 1 ∧
      (cohere_try_chat km r1 r2).retries ≤ 1) := by
  refine ⟨rfl, rfl, rfl, by simp [cohere_try_chat], rfl, rfl, ?_⟩
  intro r1
  cases r1 <;> cases r2 <;> simp [cohere_try_chat]

/-- C2 counterexample: this message contains the configured trigger phrase
in a different letter case, yet no predefined reply is selected and the
generative step does run, so trigger matching is not case-insensitive. -/
theorem claim_C2_counterexample :
    pyContains (lowerStr "es muy emparejado para ti")
      (lowerStr "ES MUY EMPAREJADO PARA TI") = true ∧
    ("es muy emparejado para ti", "Holis busco novio y tú estas lindo 🥺") ∈
      PREDEFINED_RESPONSES ∧
    handle_system_message "ES MUY EMPAREJADO PARA TI" = none ∧
    (handle_chat_parsed [] km0 []
      (.jobj [("user_id", "u1"), ("message", "ES MUY EMPAREJADO PARA TI")])
      rand0 true).generative_invoked = true := by
  refine ⟨by decide, by decide, by decide, by decide⟩

/-- C2 (amended): trigger matching is case-sensitive and short-circuits:
a message containing a configured trigger exactly always selects a
predefined reply, and whenever a predefined reply is selected the handler
returns it with status 200 and never invokes the generative step. -/
theorem claim_C2_trigger_short_circuit (message uid : String) (st : ChatStore)
    (km : ApiKeyManager) (g : List String) (r : GenRand) (dbOk : Bool) :
    ((∃ p ∈ PREDEFINED_RESPONSES, pyContains p.1 message = true) →
      (handle_system_message message).isSome = true) ∧
    (∀ resp, handle_system_message message = some resp →
      uid ≠ "" → message ≠ "" → lowerStr (pyStrip uid) ∉ IGNORED_USERS →
      (handle_chat_parsed st km g (.jobj [("user_id", uid), ("message", message)])
          r dbOk).body = resp ∧
      (handle_chat_parsed st km g (.jobj [("user_id", uid), ("message", message)])
          r dbOk).status = 200 ∧
      (handle_chat_parsed st km g (.jobj [("user_id", uid), ("message", message)])
          r dbOk).generative_invoked = false) := by
  constructor
  · intro ⟨p, hp, hc⟩
    rw [Option.isSome_iff_ne_none]
    intro hnone
    unfold handle_system_message at hnone
    rw [List.findSome?_eq_none_iff] at hnone
    have := hnone p hp
    simp [hc] at this
  · intro resp hsys h1 h2 h3
    have huid : jget [("user_id", uid), ("message", message)] "user_id" = some uid := by
      simp [jget, List.find?]
    have hmsg : jget [("user_id", uid), ("message", message)] "message" = some message := by
      simp [jget, List.find?]
    have h3b : IGNORED_USERS.contains (lowerStr (pyStrip uid)) = false := by simpa using h3
    unfold handle_chat_parsed
    simp only [huid, hmsg]
    rw [if_neg (by tauto)]
    simp [h3b, h3, hsys]

/-- C2 witness: a message containing the trigger exactly selects the
predefined reply and the generative step does not run. -/
theorem claim_C2_witness :
    (handle_system_message "xx monedas de oro para saludarle").isSome = true ∧
    (handle_chat_parsed [] km0 []
      (.jobj [("user_id", "u1"), ("message", "xx monedas de oro para saludarle")])
      rand0 true).body = "Holis busco novio y tú estas lindo 🥺" ∧
    (handle_chat_parsed [] km0 []
      (.jobj [("user_id", "u1"), ("message", "xx monedas de oro para saludarle")])
      rand0 true).generative_invoked = false := by
  have h := claim_C2_trigger_short_circuit "xx monedas de oro para saludarle" "u1"
    [] km0 [] rand0 true
  have h2 := h.2 "Holis busco novio y tú estas lindo 🥺" (by decide) (by decide) (by decide)
    (by decide)
  exact ⟨h.1 ⟨("monedas de oro para saludarle", "Holis busco novio y tú estas lindo 🥺"),
    by decide, by decide⟩, h2.1, h2.2.2⟩

/-- C3: a persistence failure during save is swallowed: when the run with a
working database returns status 200, the same request with a failing write
still returns status 200 with the same reply text, while the table is left
unmodified. -/
theorem claim_C3_save_failure_swallowed (st : ChatStore) (km : ApiKeyManager)
    (g : List String) (data : ReqJson) (r : GenRand)
    (h : (handle_chat_parsed st km g data r true).status = 200) :
    (handle_chat_parsed st km g data r false).status = 200 ∧
    (handle_chat_parsed st km g data r false).body =
      (handle_chat_parsed st km g data r true).body ∧
    (handle_chat_parsed st km g data r false).store = st := by
  obtain ⟨hb, hs, hst⟩ := handle_chat_parsed_dbOk st km g data r
  exact ⟨hs.trans h, hb, hst⟩

/-- C3 witness at a concrete generative request. -/
theorem claim_C3_witness :
    (handle_chat_parsed [] km0 [] (.jobj [("user_id", "u1"), ("message", "hola")])
      rand0 false).status = 200 ∧
    (handle_chat_parsed [] km0 [] (.jobj [("user_id", "u1"), ("message", "hola")])
      rand0 false).body =
      (handle_chat_parsed [] km0 [] (.jobj [("user_id", "u1"), ("message", "hola")])
        rand0 true).body ∧
    (handle_chat_parsed [] km0 [] (.jobj [("user_id", "u1"), ("message", "hola")])
      rand0 false).store = [] :=
  claim_C3_save_failure_swallowed [] km0 []
    (.jobj [("user_id", "u1"), ("message", "hola")]) rand0 (by decide)

/-- C4: a missing row is never an error: loading a user with no row in the
table yields the fresh default session with empty history, cleared emoji
flag and no memories. -/
theorem claim_C4_load_default (st : ChatStore) (uid : String)
    (h : store_get st uid = none) :
    get_user_history st uid = ⟨[], false, []⟩ := by
  simp [get_user_history, h]

/-- C4 witness on the empty table. -/
theorem claim_C4_witness :
    store_get [] "u1" = none ∧ get_user_history [] "u1" = ⟨[], false, []⟩ :=
  ⟨by decide, claim_C4_load_default [] "u1" (by decide)⟩

/-- C5: the memories list is capped at five and FIFO-trimmed: one update
stores exactly the last five of the old memories plus the facts the message
contributes (never more than five), and over any sequence of user messages
from a fresh session the stored memories are the last five facts extracted,
oldest dropped first. -/
theorem claim_C5_memories_cap (s : UserSession) (m : String)
    (h : List ChatMessage) (flag : Bool) (msgs : List String) :
    ((update_memories s m).map (fun s2 => s2.memories) =
      (update_memories s m).map (fun _ => takeLast 5 (s.memories ++ extracted_facts m))) ∧
    ((update_memories s m).elim True (fun s2 => s2.memories.length ≤ 5)) ∧
    ((update_memories_seq ⟨h, flag, []⟩ msgs).map (fun s2 => s2.memories) =
      (update_memories_seq ⟨h, flag, []⟩ msgs).map
        (fun _ => takeLast 5 (extracted_facts_seq msgs))) := by
  refine ⟨?_, ?_, ?_⟩
  · cases hu : update_memories s m with
    | none => simp
    | some s2 => simp [(update_memories_some hu).1]
  · cases hu : update_memories s m with
    | none => simp
    | some s2 =>
      simp only [Option.elim]
      rw [(update_memories_some hu).1]
      exact takeLast_length_le 5 _
  · cases hu : update_memories_seq ⟨h, flag, []⟩ msgs with
    | none => simp
    | some fin =>
      have hm := update_memories_seq_memories (by simp) hu
      simp only [List.nil_append] at hm
      simp [hm]

/-- C6 counterexample: the anti-repetition comparisons are not
case-insensitive: a candidate equal to the preceding agent line only up to
letter case is kept unchanged (it is no filler), and likewise a candidate
differing only in case from a recent-global-output entry passes through. -/
theorem claim_C6_counterexample :
    lowerStr "HOLA" = lowerStr "Hola" ∧
    fallback_if_bad "HOLA" (some "Hola") 0 = "HOLA" ∧
    "HOLA" ∉ BAD_FILLERS ∧
    lowerStr "HOLA" = lowerStr "hola" ∧
    (global_anti_repeat "HOLA" ["hola"] 0 0).1 = "HOLA" := by
  refine ⟨by decide, by decide, by decide, by decide, by decide⟩

/-- C6 (amended): anti-repetition compares the candidate by exact
case-sensitive equality: on exact equality with the preceding agent line or
exact membership in the recent-global set the candidate is replaced by a
filler from the fixed lists, otherwise it is kept; the global set is capped
at 20 entries, one (arbitrary) element being evicted when the cap is
exceeded. -/
theorem claim_C6_anti_repetition (reply : String) (lastBot : Option String)
    (g : List String) (i j k : Nat) :
    (some reply = lastBot → fallback_if_bad reply lastBot i ∈ BAD_FILLERS) ∧
    (reply ≠ "" → contains_forbidden_word reply = false → some reply ≠ lastBot →
      fallback_if_bad reply lastBot i = reply) ∧
    (g.contains reply = true → (global_anti_repeat reply g j k).1 ∈ GLOBAL_FILLERS) ∧
    (g.contains reply = false → (global_anti_repeat reply g j k).1 = reply) ∧
    (g.length ≤ 20 → ((global_anti_repeat reply g j k).2).length ≤ 20) := by
  refine ⟨fun h3 => ?_, fun h1 h2 h3 => ?_, fun h => ?_, fun h => ?_,
    fun h => global_anti_repeat_cap reply h j k⟩
  · unfold fallback_if_bad
    rw [if_pos (Or.inr (Or.inl h3))]
    exact badFillers_getD_mem i
  · unfold fallback_if_bad
    rw [if_neg]
    push_neg
    exact ⟨h1, h3, by simp [h2]⟩
  · unfold global_anti_repeat
    simp only [h, if_true]
    exact globalFillers_getD_mem j
  · have h2 : reply ∉ g := by simpa using h
    simp [global_anti_repeat, h2]

/-- C6 witness exercising every branch of the amended statement. -/
theorem claim_C6_witness :
    fallback_if_bad "Hola" (some "Hola") 0 ∈ BAD_FILLERS ∧
    fallback_if_bad "Hola" (some "otra") 0 = "Hola" ∧
    (global_anti_repeat "x" ["x"] 0 0).1 ∈ GLOBAL_FILLERS ∧
    (global_anti_repeat "y" ["x"] 0 0).1 = "y" ∧
    ((global_anti_repeat "z" ["x"] 0 0).2).length ≤ 20 := by
  refine ⟨(claim_C6_anti_repetition "Hola" (some "Hola") ["x"] 0 0 0).1 rfl,
    (claim_C6_anti_repetition "Hola" (some "otra") ["x"] 0 0 0).2.1
      (by decide) (by decide) (by decide),
    (claim_C6_anti_repetition "x" none ["x"] 0 0 0).2.2.1 (by decide),
    (claim_C6_anti_repetition "y" none ["x"] 0 0 0).2.2.2.1 (by decide),
    (claim_C6_anti_repetition "z" none ["x"] 0 0 0).2.2.2.2 (by decide)⟩

/-- C7: the emoji policy alternates deterministically: a cleared flag makes
the step append an emoji when the reply lacks one and set the flag; a set
flag makes it strip every emoji and clear the flag; the flag flips on every
step, and across the whole generative pipeline the stored flag is always
the negation of the previous one. -/
theorem claim_C7_emoji_alternation (reply choice msg : String) (s : UserSession)
    (km : ApiKeyManager) (g : List String) (r : GenRand) :
    emoji_policy reply false choice =
      (if contains_emoji reply then reply else reply ++ choice, true) ∧
    emoji_policy reply true choice = (strip_emojis reply, false) ∧
    contains_emoji (strip_emojis reply) = false ∧
    (∀ flag, (emoji_policy reply flag choice).2 = !flag) ∧
    ((generate_ia_response msg s km g r).map (fun res => res.session.emoji_last_message) =
      (generate_ia_response msg s km g r).map (fun _ => !s.emoji_last_message)) := by
  refine ⟨by simp [emoji_policy], by simp [emoji_policy], contains_emoji_strip reply,
    fun flag => emoji_policy_snd reply flag choice, ?_⟩
  unfold generate_ia_response
  cases hu : update_memories s msg with
  | none => simp
  | some s1 => simp [emoji_policy_snd, (update_memories_some hu).2.1]

/-- C8: input errors are rejected with no state mutation: an empty raw body
yields a 400 response; a missing or empty user_id or message yields the
400 parameter error; a blocklisted identifier yields the fixed Ignorado
response with status 200; in every such case the table is returned exactly
as it was, so no row is created or modified for any user. -/
theorem claim_C8_input_rejection (st : ChatStore) (km : ApiKeyManager) (g : List String)
    (fields : List (String × String)) (r : GenRand) (dbOk : Bool) (uid msg : String) :
    handle_chat_raw st km g "" r dbOk =
      ⟨"Error: No se recibieron datos.", 400, st, km, g, false⟩ ∧
    ((jget fields "user_id" = none ∨ jget fields "user_id" = some "" ∨
        jget fields "message" = none ∨ jget fields "message" = some "") →
      handle_chat_parsed st km g (.jobj fields) r dbOk =
        ⟨"Error: faltan parámetros", 400, st, km, g, false⟩) ∧
    (jget fields "user_id" = some uid → jget fields "message" = some msg →
      uid ≠ "" → msg ≠ "" → lowerStr (pyStrip uid) ∈ IGNORED_USERS →
      handle_chat_parsed st km g (.jobj fields) r dbOk =
        ⟨"Ignorado", 200, st, km, g, false⟩) := by
  refine ⟨by simp [handle_chat_raw], fun hbad => ?_, fun huid hmsg h1 h2 h3 => ?_⟩
  · unfold handle_chat_parsed
    rcases hbad with h | h | h | h
    · rcases hm : jget fields "message" with _ | m <;> simp [h, hm]
    · rcases hm : jget fields "message" with _ | m <;> simp [h, hm]
    · rcases hu : jget fields "user_id" with _ | u <;> simp [h, hu]
    · rcases hu : jget fields "user_id" with _ | u <;> simp [h, hu]
  · unfold handle_chat_parsed
    simp only [huid, hmsg]
    rw [if_neg (by tauto), if_pos (by simpa using h3)]

/-- C8 witness: the empty user_id of the specified scenario and a
blocklisted identifier, both leaving the empty table empty. -/
theorem claim_C8_witness :
    handle_chat_parsed [] km0 [] (.jobj [("user_id", ""), ("message", "hola")]) rand0 true =
      ⟨"Error: faltan parámetros", 400, [], km0, [], false⟩ ∧
    handle_chat_parsed [] km0 []
      (.jobj [("user_id", "Game of Thrones "), ("message", "hola")]) rand0 true =
      ⟨"Ignorado", 200, [], km0, [], false⟩ := by
  refine ⟨(claim_C8_input_rejection [] km0 [] [("user_id", ""), ("message", "hola")]
      rand0 true "" "hola").2.1 (Or.inr (Or.inl (by decide))),
    (claim_C8_input_rejection [] km0 []
      [("user_id", "Game of Thrones "), ("message", "hola")]
      rand0 true "Game of Thrones " "hola").2.2
      (by decide) (by decide) (by decide) (by decide) (by decide)⟩

/-- C9 counterexample: a raw body containing no category-C character at all
still produces a pipeline message and a stored history entry holding a
newline (a control character), because json.loads decodes the two-character
escape sequence after the cleaning; moreover the empty body and a body
consisting of one newline clean to the same string yet are answered with
different response texts. -/
theorem claim_C9_counterexample :
    clean_raw escRaw = escRaw ∧
    (store_get (handle_chat_raw [] km0 [] escRaw rand0 true).store "u").map
      (fun row => row.history.map (fun m => m.message)) = some ["a\nb", "ok 😉"] ∧
    "a\nb".data.any isCategoryC = true ∧
    clean_raw "" = clean_raw "\n" ∧
    (handle_chat_raw [] km0 [] "" rand0 true).body ≠
      (handle_chat_raw [] km0 [] "\n" rand0 true).body := by
  refine ⟨by decide, by decide, by decide, by decide, by decide⟩

/-- C9 (amended): the cleaned body contains no modelled category-C
character, and any two nonempty raw bodies with the same cleaned form are
handled identically; the claim fails only in that JSON escape sequences can
reintroduce control characters after the cleaning, and in the pre-cleaning
emptiness check. -/
theorem claim_C9_cleaning (raw raw2 : String) (st : ChatStore) (km : ApiKeyManager)
    (g : List String) (r : GenRand) (dbOk : Bool) :
    (∀ c ∈ (clean_raw raw).data, isCategoryC c = false) ∧
    (raw ≠ "" → raw2 ≠ "" → clean_raw raw = clean_raw raw2 →
      handle_chat_raw st km g raw r dbOk = handle_chat_raw st km g raw2 r dbOk) := by
  constructor
  · intro c hc
    unfold clean_raw at hc
    simp only [List.mem_filter] at hc
    simpa using hc.2
  · intro h1 h2 h3
    unfold handle_chat_raw
    rw [if_neg h1, if_neg h2, h3]

/-- C9 witness: inserting a literal newline into a body does not change the
response. -/
theorem claim_C9_witness :
    handle_chat_raw [] km0 [] rawA rand0 true = handle_chat_raw [] km0 [] rawB rand0 true ∧
    isCategoryC (Char.ofNat 10) = true :=
  ⟨(claim_C9_cleaning rawA rawB [] km0 [] rand0 true).2 (by decide) (by decide) (by decide),
   by decide⟩

/-- C10: the firewall is asymmetric: a FORBIDDEN_SOCIALS entry fires as a
plain substring in any surrounding text, even inside a longer word, while a
FORBIDDEN_WORDS entry fires only as a whole word: it is found as a
substring of hagos and xhago yet neither text is flagged, whereas the same
word flanked by boundaries is flagged. -/
theorem claim_C10_forbidden_asymmetry (pre post : String) :
    contains_forbidden_word (pre ++ "facebook" ++ post) = true ∧
    contains_forbidden_word "hago" = true ∧
    contains_forbidden_word "se hago ya" = true ∧
    pyContains "hago" "hagos" = true ∧
    contains_forbidden_word "hagos" = false ∧
    pyContains "hago" "xhago" = true ∧
    contains_forbidden_word "xhago" = false := by
  refine ⟨?_, by decide, by decide, by decide, by decide, by decide, by decide⟩
  have hdata : (lowerStr (pre ++ "facebook" ++ post)).data =
      (lowerStr pre).data ++ "facebook".data ++ (lowerStr post).data := by
    rw [lowerStr_append, lowerStr_append]
    have hf : lowerStr "facebook" = "facebook" := by decide
    rw [hf, String.data_append, String.data_append]
  have hsoc : FORBIDDEN_SOCIALS.any
      (fun soc => containsSub soc.data (lowerStr (pre ++ "facebook" ++ post)).data) = true := by
    rw [List.any_eq_true]
    refine ⟨"facebook", by decide, ?_⟩
    rw [hdata]
    exact containsSub_sandwich "facebook".data (lowerStr pre).data (lowerStr post).data
  unfold contains_forbidden_word
  simp [hsoc]
